import Mathlib

/-!
# Verification of the Study Helper bot (src/main.py)

A shallow embedding of the command handlers of `src/main.py`:
the pomodoro timer command, the per-user task store commands
(`tasks_add`, `tasks_list`, `tasks_done`) and the quote command.

Modelling conventions:
* The in-memory dict `user_tasks : Dict[int, List[str]]` (line 27) is an
  association list `TaskMap`; `lookupTasks` is dict membership / read and
  `setTasks` is dict assignment.
* A handler is a pure function from its inputs (store state, chat / user
  id, `context.args`) to the new state and the text replies it sends.
* `random.choice` is modelled by an oracle index: the handler takes the
  index chosen by the random generator as an extra argument.
* Python string primitives (`str.isdigit`, `int(...)`, `str.strip`,
  `" ".join`) are modelled over ASCII character lists.
-/

namespace StudyBot

/-- Python `s.isdigit()` over ASCII: `s` is non-empty and all its
characters are decimal digits (used at src/main.py lines 81 and 146). -/
def pyIsDigit (s : String) : Bool :=
  !s.data.isEmpty && s.data.all Char.isDigit

/-- Python `int(s)` on a decimal digit string
(src/main.py lines 82 and 151). -/
def pyInt (s : String) : Nat :=
  s.data.foldl (fun acc c => acc * 10 + (c.toNat - 48)) 0

/-- Python `s.strip()` over ASCII whitespace: drop leading and trailing
whitespace characters (src/main.py line 115). -/
def pyStrip (s : String) : String :=
  String.mk (((s.data.dropWhile Char.isWhitespace).reverse.dropWhile Char.isWhitespace).reverse)

/-- The process-wide task store `user_tasks : Dict[int, List[str]]`
(src/main.py line 27), as an association list keyed by user id. -/
abbrev TaskMap := List (Int × List String)

/-- Dict read: `user_tasks[u]` when the key is present, `none` when
`u not in user_tasks`. -/
def lookupTasks : TaskMap → Int → Option (List String)
  | [], _ => none
  | (k, v) :: rest, u => if k = u then some v else lookupTasks rest u

/-- Dict assignment `user_tasks[u] = ts`: overwrite the entry when the
key is present, insert a new entry otherwise. -/
def setTasks : TaskMap → Int → List String → TaskMap
  | [], u, ts => [(u, ts)]
  | (k, v) :: rest, u, ts =>
      if k = u then (u, ts) :: rest else (k, v) :: setTasks rest u ts

/-- The payload handed to `context.job_queue.run_once`
(src/main.py lines 95-101): callback delay in seconds, target chat id,
job name, and the `data` dict entry `data[ ... ] = f"{m}-minute study"`
stored under key `type`. -/
structure Job where
  chat_id : Int
  delay : Nat
  name : String
  data_type : String
deriving DecidableEq

/-- Observable effect of one `pomodoro_command` call: the replies sent
back to the chat and the jobs registered with the scheduler. -/
structure PomOut where
  replies : List String
  jobs : List Job
deriving DecidableEq

/-- src/main.py lines 81-86: the requested duration in minutes.
`context.args` non-empty with a digit first argument parses that
argument; otherwise the handler falls back to the default of 25. -/
def requested_minutes (args : List String) : Nat :=
  match args with
  | [] => 25
  | a :: _ => if pyIsDigit a then pyInt a else 25

/-- The duration-to-delay policy of src/main.py line 88
(`duration_seconds = 10 if duration_minutes == 25 else duration_minutes * 60`),
the policy the spec calls `resolve_delay`: a request of 25 minutes is
shortened to 10 seconds (testing shortcut), anything else is `m * 60`. -/
def resolve_delay (minutes : Nat) : Nat :=
  if minutes = 25 then 10 else minutes * 60

/-- src/main.py lines 74-108, `pomodoro_command`. The `except` clause of
lines 107-108 is unreachable in the ASCII model: `int` cannot fail on a
digit string and the first argument is only read after the emptiness
check of line 81. -/
def pomodoro_command (chat_id : Int) (args : List String) : PomOut :=
  let duration_minutes := requested_minutes args
  let duration_seconds := if duration_minutes = 25 then 10 else duration_minutes * 60
  if duration_seconds < 5 then
    { replies := ["The minimum timer duration is 5 seconds."], jobs := [] }
  else
    { replies := ["✅ Timer set! You are now focusing for " ++ toString duration_minutes
        ++ " minutes. I\x27ll notify you when time\x27s up!"],
      jobs := [{ chat_id := chat_id, delay := duration_seconds, name := toString chat_id,
                 data_type := toString duration_minutes ++ "-minute study" }] }

/-- src/main.py lines 64-72, `alarm_callback`: on firing, one message is
sent to the stored chat id, mentioning the stored label. The result is
the list of `(chat_id, text)` messages sent. -/
def alarm_callback (job : Job) : List (Int × String) :=
  [(job.chat_id,
    "**DING DING!** Your " ++ job.data_type
      ++ " timer is finished! Time for a well-deserved break or move on to the next task.")]

/-- src/main.py lines 112-126, `tasks_add_command`: joins the arguments,
strips whitespace, rejects empty text, otherwise initialises the user
entry if absent and appends. Returns the new store and the reply. -/
def tasks_add_command (m : TaskMap) (u : Int) (args : List String) : TaskMap × String :=
  let task_text := pyStrip (String.intercalate " " args)
  if task_text = "" then
    (m, "Please provide the task description after the command, e.g., `/tasks_add Read Chapter 3`")
  else
    let m1 := if lookupTasks m u = none then setTasks m u [] else m
    let ts := (lookupTasks m1 u).getD []
    (setTasks m1 u (ts ++ [task_text]),
     "📝 Task added: **" ++ task_text ++ "** (Task #" ++ toString (ts.length + 1) ++ ")")

/-- src/main.py lines 137-138: the numbered lines produced by
`for i, task in enumerate(tasks, 1): message += f"{i}. {task}\n"`. -/
def task_lines (tasks : List String) : List String :=
  (List.enumFrom 1 tasks).map (fun p => toString p.1 ++ ". " ++ p.2 ++ "\n")

/-- src/main.py lines 128-140, `tasks_list_command`: an absent or empty
list yields the empty-list message, otherwise the header followed by the
numbered task lines. The store is not mutated. -/
def tasks_list_command (m : TaskMap) (u : Int) : TaskMap × String :=
  match lookupTasks m u with
  | none => (m, "🎉 Your to-do list is empty! Ready to add some new study goals?")
  | some tasks =>
    if tasks = [] then
      (m, "🎉 Your to-do list is empty! Ready to add some new study goals?")
    else
      (m, "📚 **Your Current Study Tasks:**\n\n" ++ String.join (task_lines tasks))

/-- src/main.py lines 142-164, `tasks_done_command`: validates the
argument as a digit string, converts the 1-based index to 0-based,
rejects an absent or empty list, rejects an out-of-range index, and
otherwise pops (removes and reports) the selected task. -/
def tasks_done_command (m : TaskMap) (u : Int) (args : List String) : TaskMap × String :=
  match args with
  | [] => (m, "Usage: /tasks_done [number of task to complete]. Use /tasks_list to see numbers.")
  | a :: _ =>
    if pyIsDigit a = false then
      (m, "Usage: /tasks_done [number of task to complete]. Use /tasks_list to see numbers.")
    else
      let task_index : Int := (pyInt a : Int) - 1
      match lookupTasks m u with
      | none => (m, "Your list is empty, nothing to mark as done!")
      | some tasks =>
        if tasks = [] then
          (m, "Your list is empty, nothing to mark as done!")
        else if 0 ≤ task_index ∧ task_index < (tasks.length : Int) then
          (setTasks m u (tasks.eraseIdx task_index.toNat),
           "✅ Great job! You completed: **" ++ tasks.getD task_index.toNat "" ++ "**")
        else
          (m, "That task number doesn\x27t exist. Check /tasks_list for current numbers.")

/-- src/main.py lines 36-45: the fixed quote list. -/
def quotes : List String :=
  ["The mind is not a vessel to be filled, but a fire to be kindled. - Plutarch",
   "The beautiful thing about learning is that no one can take it away from you. - B.B. King",
   "The only way to do great work is to love what you do. - Steve Jobs",
   "Strive for progress, not perfection.",
   "Today\x27s actions are tomorrow\x27s results."]

/-- src/main.py line 45, `random.choice(quotes)`: the random generator
is an oracle supplying an index; any actual choice is the index of the
selected element, so every possible draw is covered by some `choice`. -/
def get_motivational_quote (choice : Nat) : String :=
  quotes.getD (choice % quotes.length) ""

/-- src/main.py lines 168-171, `quote_command`: the reply text built
around the selected quote. -/
def quote_command (choice : Nat) : String :=
  "💡 **Motivation Boost:**\n\n_" ++ get_motivational_quote choice ++ "_"

/-! ## Helper lemmas about the store operations -/

theorem lookupTasks_setTasks_self : ∀ (m : TaskMap) (u : Int) (ts : List String),
    lookupTasks (setTasks m u ts) u = some ts
  | [], u, ts => by simp [setTasks, lookupTasks]
  | (k, v) :: rest, u, ts => by
    by_cases h : k = u <;>
      simp [setTasks, lookupTasks, h, lookupTasks_setTasks_self rest u ts]

theorem lookupTasks_setTasks_ne : ∀ (m : TaskMap) (u v : Int) (ts : List String), v ≠ u →
    lookupTasks (setTasks m u ts) v = lookupTasks m v
  | [], u, v, ts, hvu => by simp [setTasks, lookupTasks, Ne.symm hvu]
  | (k, w) :: rest, u, v, ts, hvu => by
    by_cases h : k = u
    · subst h
      simp [setTasks, lookupTasks, hvu, Ne.symm hvu]
    · simp only [setTasks, if_neg h, lookupTasks]
      by_cases h2 : k = v <;>
        simp [h2, lookupTasks_setTasks_ne rest u v ts hvu]

theorem get?_eraseIdx_of_lt {α : Type} : ∀ (l : List α) (i j : Nat), j < i →
    (l.eraseIdx i).get? j = l.get? j
  | [], _, _, _ => by simp [List.eraseIdx]
  | _ :: _, 0, j, h => by omega
  | x :: xs, i + 1, 0, _ => by simp [List.eraseIdx]
  | x :: xs, i + 1, j + 1, h => by
    simpa [List.eraseIdx] using get?_eraseIdx_of_lt xs i j (by omega)

theorem get?_eraseIdx_of_ge {α : Type} : ∀ (l : List α) (i j : Nat), i ≤ j →
    (l.eraseIdx i).get? j = l.get? (j + 1)
  | [], _, _, _ => by simp [List.eraseIdx]
  | x :: xs, 0, j, _ => by simp [List.eraseIdx]
  | x :: xs, i + 1, j + 1, h => by
    simpa [List.eraseIdx] using get?_eraseIdx_of_ge xs i j (by omega)

/-! ## Claims about the pomodoro timer -/

/-- Claim C1: every job scheduled by the pomodoro command carries the
delay given by the `resolve_delay` policy applied to the requested
minute count m: 10 seconds when m = 25 (whether m was supplied
explicitly or used as the default), m * 60 seconds for every m ≠ 25; in
particular `resolve_delay 25 = 10` and `resolve_delay 5 = 300`. -/
theorem pomodoro_delay_policy (chat_id : Int) (args : List String) :
    (∀ j ∈ (pomodoro_command chat_id args).jobs,
        j.delay = resolve_delay (requested_minutes args)) ∧
    resolve_delay 25 = 10 ∧ resolve_delay 5 = 300 ∧
    (∀ m : Nat, m ≠ 25 → resolve_delay m = m * 60) := by
  refine ⟨?_, by decide, by decide, fun m hm => by simp [resolve_delay, hm]⟩
  intro j hj
  by_cases h : (if requested_minutes args = 25 then 10 else requested_minutes args * 60) < 5
  · simp [pomodoro_command, h] at hj
  · simp [pomodoro_command, h] at hj
    simp [hj, resolve_delay]

/-- Concrete instance of `pomodoro_delay_policy`: the job scheduled by
`/pomodoro 5` carries delay `resolve_delay 5`, and `resolve_delay 4`
is 240. -/
theorem pomodoro_delay_policy_witness :
    ({ chat_id := 7, delay := 300, name := "7", data_type := "5-minute study" } : Job).delay
        = resolve_delay (requested_minutes ["5"]) ∧
    resolve_delay 4 = 4 * 60 :=
  ⟨(pomodoro_delay_policy 7 ["5"]).1 _ (by decide),
   (pomodoro_delay_policy 7 ["5"]).2.2.2 4 (by decide)⟩

/-- Claim C2 counterexample: the explicit argument "abc" does not parse
as a non-negative integer, yet the command does not fail with a usage
error: it schedules one job and replies with the 25-minute confirmation
message (the non-digit argument is silently replaced by the default). -/
theorem nondigit_arg_schedules_default_timer :
    (pomodoro_command 1 ["abc"]).jobs.length = 1 ∧
    (pomodoro_command 1 ["abc"]).replies
      = ["✅ Timer set! You are now focusing for 25 minutes. I\x27ll notify you when time\x27s up!"] := by
  decide

/-- Claim C2 (amended): when the caller supplies no argument the
requested duration defaults to 25 minutes; when the supplied first
argument is a digit string it is parsed as that non-negative integer;
when it is not a digit string the command does not fail with a usage
error: the argument is ignored and the command behaves exactly as if no
argument had been supplied (default of 25 minutes). -/
theorem nondigit_arg_defaults_to_25 (chat_id : Int) (a : String) (rest : List String) :
    (pyIsDigit a = false →
        requested_minutes (a :: rest) = 25 ∧
        pomodoro_command chat_id (a :: rest) = pomodoro_command chat_id []) ∧
    (pyIsDigit a = true → requested_minutes (a :: rest) = pyInt a) ∧
    requested_minutes [] = 25 := by
  refine ⟨fun h => ?_, fun h => ?_, rfl⟩
  · constructor <;> simp [requested_minutes, pomodoro_command, h]
  · simp [requested_minutes, h]

/-- Concrete instances of `nondigit_arg_defaults_to_25`: the non-digit
argument "abc" yields the same behavior as no argument, and the digit
argument "5" parses as 5. -/
theorem nondigit_arg_defaults_to_25_witness :
    (requested_minutes ["abc"] = 25 ∧
     pomodoro_command 1 ["abc"] = pomodoro_command 1 []) ∧
    requested_minutes ["5"] = pyInt "5" :=
  ⟨(nondigit_arg_defaults_to_25 1 "abc" []).1 (by decide),
   (nondigit_arg_defaults_to_25 1 "5" []).2.1 (by decide)⟩

/-- Claim C3: a pomodoro request whose resolved delay is below 5 seconds
is rejected with the minimum-duration message and schedules no job; a
request whose resolved delay is at least 5 seconds schedules exactly one
job. -/
theorem minimum_delay_floor (chat_id : Int) (args : List String) :
    (resolve_delay (requested_minutes args) < 5 →
        (pomodoro_command chat_id args).jobs = [] ∧
        (pomodoro_command chat_id args).replies
          = ["The minimum timer duration is 5 seconds."]) ∧
    (5 ≤ resolve_delay (requested_minutes args) →
        (pomodoro_command chat_id args).jobs.length = 1) := by
  unfold resolve_delay
  constructor
  · intro h
    simp [pomodoro_command, h]
  · intro h
    simp [pomodoro_command, Nat.not_lt.mpr h]

/-- Concrete instances of `minimum_delay_floor`: `/pomodoro 0` resolves
to 0 seconds and is rejected with no job; `/pomodoro` with no argument
resolves to 10 seconds and schedules exactly one job. -/
theorem minimum_delay_floor_witness :
    ((pomodoro_command 3 ["0"]).jobs = [] ∧
     (pomodoro_command 3 ["0"]).replies = ["The minimum timer duration is 5 seconds."]) ∧
    (pomodoro_command 3 []).jobs.length = 1 :=
  ⟨(minimum_delay_floor 3 ["0"]).1 (by decide),
   (minimum_delay_floor 3 []).2 (by decide)⟩

/-- Claim C4: every job scheduled by an accepted pomodoro request stores
the target chat id and the label "{m}-minute study" for the requested
minute count m, the confirmation reply states the requested count m (not
the resolved delay), and firing the job sends exactly one notification
to the stored chat id referencing the stored label. -/
theorem scheduled_job_payload_and_fire (chat_id : Int) (args : List String) (j : Job)
    (hj : j ∈ (pomodoro_command chat_id args).jobs) :
    j.chat_id = chat_id ∧
    j.data_type = toString (requested_minutes args) ++ "-minute study" ∧
    (pomodoro_command chat_id args).replies
      = ["✅ Timer set! You are now focusing for " ++ toString (requested_minutes args)
          ++ " minutes. I\x27ll notify you when time\x27s up!"] ∧
    alarm_callback j
      = [(chat_id, "**DING DING!** Your " ++ j.data_type
          ++ " timer is finished! Time for a well-deserved break or move on to the next task.")] := by
  by_cases h : (if requested_minutes args = 25 then 10 else requested_minutes args * 60) < 5
  · simp [pomodoro_command, h] at hj
  · simp [pomodoro_command, h] at hj
    subst hj
    exact ⟨rfl, rfl, by simp [pomodoro_command, h], rfl⟩

/-- Concrete instance of `scheduled_job_payload_and_fire`: the job
scheduled by `/pomodoro` with no argument for chat 7. -/
theorem scheduled_job_payload_and_fire_witness :
    (Job.mk 7 10 "7" "25-minute study").chat_id = 7 ∧
    (Job.mk 7 10 "7" "25-minute study").data_type
      = toString (requested_minutes []) ++ "-minute study" ∧
    (pomodoro_command 7 []).replies
      = ["✅ Timer set! You are now focusing for " ++ toString (requested_minutes [])
          ++ " minutes. I\x27ll notify you when time\x27s up!"] ∧
    alarm_callback (Job.mk 7 10 "7" "25-minute study")
      = [(7, "**DING DING!** Your " ++ (Job.mk 7 10 "7" "25-minute study").data_type
          ++ " timer is finished! Time for a well-deserved break or move on to the next task.")] :=
  scheduled_job_payload_and_fire 7 [] (Job.mk 7 10 "7" "25-minute study") (by decide)

/-! ## Claims about the task store -/

/-- Claim C5: for every user and every text that is empty after trimming
whitespace (including the empty string and whitespace-only strings),
adding a task yields the usage-error reply and leaves the whole task map
unchanged; in particular no list entry is created for a user who has
none. -/
theorem add_empty_text_rejected (m : TaskMap) (u : Int) (args : List String)
    (h : pyStrip (String.intercalate " " args) = "") :
    tasks_add_command m u args
      = (m, "Please provide the task description after the command, e.g., `/tasks_add Read Chapter 3`") := by
  simp [tasks_add_command, h]

/-- Concrete instance of `add_empty_text_rejected`: a whitespace-only
argument for a user with no list leaves the empty store empty. -/
theorem add_empty_text_rejected_witness :
    tasks_add_command [] 0 [" "]
      = ([], "Please provide the task description after the command, e.g., `/tasks_add Read Chapter 3`") :=
  add_empty_text_rejected [] 0 [" "] (by decide)

/-- Only the numbered line produced for the freshly appended last
element: appending `x` to `xs` puts the line numbered `xs.length + 1`
at position `xs.length` of the rendered task lines. -/
theorem task_lines_concat (xs : List String) (x : String) :
    (task_lines (xs ++ [x])).get? xs.length
      = some (toString (xs.length + 1) ++ ". " ++ x ++ "\n") := by
  simp [task_lines, List.get?_map, List.get?_enumFrom, List.get?_concat_length, Nat.add_comm]

/-- Claim C6: for every user and every text that is non-empty after
trimming, adding a task appends the trimmed text to that user's list
(creating the list if absent) and reports the new 1-based count; listing
immediately afterwards renders exactly the numbered lines of the new
list, with the fresh text numbered by the reported count. -/
theorem add_appends_and_lists_at_count (m : TaskMap) (u : Int) (args : List String)
    (text : String) (old : List String)
    (htext : pyStrip (String.intercalate " " args) = text)
    (hold : (lookupTasks m u).getD [] = old)
    (hne : text ≠ "") :
    lookupTasks (tasks_add_command m u args).1 u = some (old ++ [text]) ∧
    (tasks_add_command m u args).2
      = "📝 Task added: **" ++ text ++ "** (Task #" ++ toString (old.length + 1) ++ ")" ∧
    (task_lines (old ++ [text])).get? old.length
      = some (toString (old.length + 1) ++ ". " ++ text ++ "\n") ∧
    (tasks_list_command (tasks_add_command m u args).1 u).2
      = "📚 **Your Current Study Tasks:**\n\n" ++ String.join (task_lines (old ++ [text])) := by
  subst htext
  subst hold
  have key : lookupTasks (tasks_add_command m u args).1 u
      = some ((lookupTasks m u).getD [] ++ [pyStrip (String.intercalate " " args)]) := by
    cases hcase : lookupTasks m u with
    | none => simp [tasks_add_command, hne, hcase, lookupTasks_setTasks_self]
    | some l => simp [tasks_add_command, hne, hcase, lookupTasks_setTasks_self]
  refine ⟨key, ?_, task_lines_concat _ _, ?_⟩
  · cases hcase : lookupTasks m u with
    | none => simp [tasks_add_command, hne, hcase, lookupTasks_setTasks_self]
    | some l => simp [tasks_add_command, hne, hcase, lookupTasks_setTasks_self]
  · have hne2 : (lookupTasks m u).getD [] ++ [pyStrip (String.intercalate " " args)] ≠ [] := by
      simp
    simp [tasks_list_command, key, hne2]

/-- Concrete instance of `add_appends_and_lists_at_count`: adding
"Read Chapter 3" for a fresh user creates the singleton list, reports
count 1, and the listing shows the task as line 1. -/
theorem add_appends_and_lists_at_count_witness :
    lookupTasks (tasks_add_command [] 0 ["Read", "Chapter", "3"]).1 0
      = some (([] : List String) ++ ["Read Chapter 3"]) ∧
    (tasks_add_command [] 0 ["Read", "Chapter", "3"]).2
      = "📝 Task added: **" ++ "Read Chapter 3" ++ "** (Task #"
          ++ toString (([] : List String).length + 1) ++ ")" ∧
    (task_lines (([] : List String) ++ ["Read Chapter 3"])).get? ([] : List String).length
      = some (toString (([] : List String).length + 1) ++ ". " ++ "Read Chapter 3" ++ "\n") ∧
    (tasks_list_command (tasks_add_command [] 0 ["Read", "Chapter", "3"]).1 0).2
      = "📚 **Your Current Study Tasks:**\n\n"
          ++ String.join (task_lines (([] : List String) ++ ["Read Chapter 3"])) :=
  add_appends_and_lists_at_count [] 0 ["Read", "Chapter", "3"] "Read Chapter 3" []
    (by decide) (by decide) (by decide)

/-- Claim C7: for every user whose list is `ts` and every 1-based index
k with 1 ≤ k ≤ ts.length, supplied as a digit string parsing to k,
completing removes exactly the k-th element, reports the removed
element, and the remaining elements keep their relative order: positions
before k - 1 are untouched and each later element moves down by one. -/
theorem complete_removes_kth (m : TaskMap) (u : Int) (a : String) (k : Nat) (ts : List String)
    (ha : pyIsDigit a = true) (hk : pyInt a = k)
    (hts : lookupTasks m u = some ts) (h1 : 1 ≤ k) (h2 : k ≤ ts.length) :
    (tasks_done_command m u [a]).2
      = "✅ Great job! You completed: **" ++ ts.getD (k - 1) "" ++ "**" ∧
    lookupTasks (tasks_done_command m u [a]).1 u = some (ts.eraseIdx (k - 1)) ∧
    (ts.eraseIdx (k - 1)).length + 1 = ts.length ∧
    (∀ i : Nat, i < k - 1 → (ts.eraseIdx (k - 1)).get? i = ts.get? i) ∧
    (∀ i : Nat, k - 1 ≤ i → (ts.eraseIdx (k - 1)).get? i = ts.get? (i + 1)) := by
  subst hk
  have htsne : ts ≠ [] := by
    intro hcon
    subst hcon
    simp at h2
    omega
  have hbound : 0 ≤ (pyInt a : Int) - 1 ∧ (pyInt a : Int) - 1 < (ts.length : Int) := by
    constructor <;> omega
  have hnat : ((pyInt a : Int) - 1).toNat = pyInt a - 1 := by omega
  have heq : tasks_done_command m u [a]
      = (setTasks m u (ts.eraseIdx (pyInt a - 1)),
         "✅ Great job! You completed: **" ++ ts.getD (pyInt a - 1) "" ++ "**") := by
    simp [tasks_done_command, ha, hts, htsne, hbound, hnat]
  refine ⟨by simp [heq], by simp [heq, lookupTasks_setTasks_self], ?_, ?_, ?_⟩
  · exact List.length_eraseIdx_add_one (by omega)
  · intro i hi
    exact get?_eraseIdx_of_lt ts _ i hi
  · intro i hi
    exact get?_eraseIdx_of_ge ts _ i hi

/-- Concrete instance of `complete_removes_kth`: completing task 1 of
the two-element list removes "Read Chapter 3", and "Do homework" moves
from position 2 to position 1. -/
theorem complete_removes_kth_witness :
    (tasks_done_command [(5, ["Read Chapter 3", "Do homework"])] 5 ["1"]).2
      = "✅ Great job! You completed: **"
          ++ ["Read Chapter 3", "Do homework"].getD (1 - 1) "" ++ "**" ∧
    lookupTasks (tasks_done_command [(5, ["Read Chapter 3", "Do homework"])] 5 ["1"]).1 5
      = some (["Read Chapter 3", "Do homework"].eraseIdx (1 - 1)) ∧
    (["Read Chapter 3", "Do homework"].eraseIdx (1 - 1)).get? 0
      = ["Read Chapter 3", "Do homework"].get? (0 + 1) := by
  obtain ⟨c1, c2, -, -, c5⟩ :=
    complete_removes_kth [(5, ["Read Chapter 3", "Do homework"])] 5 "1" 1
      ["Read Chapter 3", "Do homework"] (by decide) (by decide) (by decide)
      (by decide) (by decide)
  exact ⟨c1, c2, c5 0 (by omega)⟩

/-- Claim C8: completing with a digit-string index fails with the
empty-list message when the user's list is absent or empty, fails with
the does-not-exist message when the index is outside the 1..L bounds of
a non-empty list, and in both failure cases the task map is unchanged. -/
theorem complete_failures_leave_list_unchanged (m : TaskMap) (u : Int) (a : String)
    (args : List String) (ha : pyIsDigit a = true) :
    ((lookupTasks m u).getD [] = [] →
        tasks_done_command m u (a :: args)
          = (m, "Your list is empty, nothing to mark as done!")) ∧
    (∀ ts, lookupTasks m u = some ts → ts ≠ [] → (pyInt a = 0 ∨ ts.length < pyInt a) →
        tasks_done_command m u (a :: args)
          = (m, "That task number doesn\x27t exist. Check /tasks_list for current numbers.")) := by
  constructor
  · intro hempty
    cases hcase : lookupTasks m u with
    | none => simp [tasks_done_command, ha, hcase]
    | some l =>
      rw [hcase] at hempty
      simp at hempty
      subst hempty
      simp [tasks_done_command, ha, hcase]
  · intro ts hts htsne hrange
    have hnb : ¬(1 ≤ pyInt a ∧ (pyInt a : Int) - 1 < (ts.length : Int)) := by
      rcases hrange with hr | hr <;> omega
    simp [tasks_done_command, ha, hts, htsne, hnb]

/-- Concrete instances of `complete_failures_leave_list_unchanged`:
`/tasks_done 9` with no list yields the empty-list message, and on a
2-item list yields the does-not-exist message with the list unchanged. -/
theorem complete_failures_leave_list_unchanged_witness :
    tasks_done_command [] 1 ["9"] = ([], "Your list is empty, nothing to mark as done!") ∧
    tasks_done_command [(1, ["x", "y"])] 1 ["9"]
      = ([(1, ["x", "y"])],
         "That task number doesn\x27t exist. Check /tasks_list for current numbers.") :=
  ⟨(complete_failures_leave_list_unchanged [] 1 "9" [] (by decide)).1 (by decide),
   (complete_failures_leave_list_unchanged [(1, ["x", "y"])] 1 "9" [] (by decide)).2
      ["x", "y"] (by decide) (by decide) (Or.inr (by decide))⟩

/-! ## Claims about the quote command and the frame of the store -/

theorem getD_mem_of_lt {α : Type} (l : List α) (i : Nat) (d : α) (h : i < l.length) :
    l.getD i d ∈ l := by
  rw [List.getD_eq_get?, List.get?_eq_get h]
  exact List.get_mem l i h

/-- Claim C9: for every possible random draw, the selected quote is a
member of the fixed 5-entry quote list, and the reply of the quote
command is built around exactly that member. -/
theorem quote_reply_membership (choice : Nat) :
    get_motivational_quote choice ∈ quotes ∧ quotes.length = 5 ∧
    quote_command choice
      = "💡 **Motivation Boost:**\n\n_" ++ get_motivational_quote choice ++ "_" := by
  refine ⟨?_, by decide, rfl⟩
  exact getD_mem_of_lt quotes _ "" (Nat.mod_lt _ (by decide))

/-- Claim C10: each task-store operation for user u leaves the entry of
every other user v unchanged: add and complete may only touch the entry
keyed by u, and list does not change the store at all. -/
theorem task_store_frame (m : TaskMap) (u v : Int) (argsA argsD : List String)
    (hvu : v ≠ u) :
    lookupTasks (tasks_add_command m u argsA).1 v = lookupTasks m v ∧
    (tasks_list_command m u).1 = m ∧
    lookupTasks (tasks_done_command m u argsD).1 v = lookupTasks m v := by
  refine ⟨?_, ?_, ?_⟩
  · by_cases hempty : pyStrip (String.intercalate " " argsA) = ""
    · simp [tasks_add_command, hempty]
    · cases hcase : lookupTasks m u with
      | none => simp [tasks_add_command, hempty, hcase, lookupTasks_setTasks_ne _ _ _ _ hvu]
      | some l => simp [tasks_add_command, hempty, hcase, lookupTasks_setTasks_ne _ _ _ _ hvu]
  · unfold tasks_list_command
    cases lookupTasks m u with
    | none => rfl
    | some l => by_cases hl : l = [] <;> simp [hl]
  · cases argsD with
    | nil => simp [tasks_done_command]
    | cons a rest =>
      by_cases hd : pyIsDigit a = false
      · simp [tasks_done_command, hd]
      · cases hcase : lookupTasks m u with
        | none => simp [tasks_done_command, hd, hcase]
        | some l =>
          by_cases hl : l = []
          · simp [tasks_done_command, hd, hcase, hl]
          · by_cases hb : 1 ≤ pyInt a ∧ (pyInt a : Int) - 1 < (l.length : Int)
            · simp [tasks_done_command, hd, hcase, hl, hb, lookupTasks_setTasks_ne _ _ _ _ hvu]
            · simp [tasks_done_command, hd, hcase, hl, hb]

/-- Concrete instance of `task_store_frame`: operations for user 1 leave
the entry of user 2 untouched. -/
theorem task_store_frame_witness :
    lookupTasks (tasks_add_command [(2, ["keep"])] 1 ["new", "task"]).1 2
      = lookupTasks [(2, ["keep"])] 2 ∧
    (tasks_list_command [(2, ["keep"])] 1).1 = [(2, ["keep"])] ∧
    lookupTasks (tasks_done_command [(2, ["keep"])] 1 ["1"]).1 2
      = lookupTasks [(2, ["keep"])] 2 :=
  task_store_frame [(2, ["keep"])] 1 2 ["new", "task"] ["1"] (by decide)

end StudyBot
